import Mathlib

/-!
Verification of the OpenVINO intel-GPU `convert_and_copy` family
(`src/unnamed/part_000`) and of the ngraph `ReshapeFullyConnected`
rewrite pass
(`src/inference-engine/src/transformations/src/transformations/convert_opset1_to_legacy/reshape_fully_connected.cpp`)
against their natural-language specification.

Memory is modelled at byte granularity: a buffer is a function `Nat → Nat`
giving the byte stored at each address, and the copier's output is the flat
list of bytes written sequentially to the (contiguous) destination.
Numeric casting between concrete C++ scalar types is floating-point /
machine-arithmetic machinery external to the copied code, so it is taken as
a parameter `castv : ElementType → ElementType → List Nat → List Nat`
mapping the bytes of one source element to the bytes of one destination
element; every theorem quantifies over it.
-/

namespace OpenVINO

/-- The `ov::element::Type` tags used by the copier
(`src/unnamed/part_000`).  `undefined` appears only in the default layout
built by the `ITensor` overload. -/
inductive ElementType where
  | f64 | f32 | f16
  | i16 | u16
  | i32 | u32
  | i64 | u64
  | undefined
  deriving DecidableEq, Repr

/-- `ov::element::Type::size()` in bytes for the types the copier touches
(`double`, `float`, `ov::float16`, `intN_t`/`uintN_t`). -/
def ElementType.size : ElementType → Nat
  | .f64 => 8
  | .f32 => 4
  | .f16 => 2
  | .i16 => 2
  | .u16 => 2
  | .i32 => 4
  | .u32 => 4
  | .i64 => 8
  | .u64 => 8
  | .undefined => 0

/-- Shallow model of `cldnn::layout` as the copier uses it.
`data_padding` is the boolean test `static_cast<bool>(layout.data_padding)`.
The extents are the components of `layout.get_tensor()`
(`size.batch[0]`, `size.feature[0]`, `size.spatial[0..3]`).
`linear_offset` is modelled from the spec: `cldnn::layout::get_linear_offset`
is not part of the copied sources; the spec describes it as "the layout's
affine addressing function mapping a logical N-dimensional index to a
physical linear offset", so it is kept as an arbitrary function field
`(b, f, x, y, z, w) ↦ element offset`. -/
structure CldnnLayout where
  data_padding : Bool
  data_type : ElementType
  batch : Nat
  feature : Nat
  spatial0 : Nat
  spatial1 : Nat
  spatial2 : Nat
  spatial3 : Nat
  linear_offset : Nat → Nat → Nat → Nat → Nat → Nat → Nat

/-- The bytes of element number `i` of a buffer whose elements are `es`
bytes wide: bytes at addresses `i*es, i*es+1, …, i*es+es-1`.
This is how `src[i]` reads memory for a scalar type of size `es`. -/
def elemBytes (src : Nat → Nat) (es : Nat) (i : Nat) : List Nat :=
  (List.range es).map (fun k => src (i * es + k))

/-- Modelled from the spec: `std::memcpy` of `n` bytes out of `src` —
"a raw memory copy of `element_count * element_size` bytes", i.e. the
first `n` bytes of the source in address order. -/
def memcpyBytes (src : Nat → Nat) (n : Nat) : List Nat :=
  (List.range n).map src

/-- The error raised by `OPENVINO_THROW("[GPU] Unsupported element types
combination for copy: ", src_et, " -> ", dst_et)`: it carries both element
types. -/
inductive CopyError where
  | UnsupportedConversion (src_et dst_et : ElementType)
  deriving DecidableEq, Repr

/-- The `CASE(...)` chain of `convert_and_copy` in source order: the fixed
table of supported (source type, destination type) pairs. -/
def supported_pairs : List (ElementType × ElementType) :=
  [ (.f64, .f32), (.i16, .f32), (.u16, .f32),
    (.u64, .i32), (.i64, .i32), (.u32, .i32),
    (.f32, .f64), (.i32, .i64), (.i32, .u64), (.i32, .u32),
    (.f32, .i16), (.f32, .u16),
    (.u32, .i64), (.u32, .u64),
    (.f32, .f32), (.f16, .f16), (.f32, .f16), (.f16, .f32) ]

/-- `convert_and_copy_no_pad`: `for (i = 0; i < size; i++) dst[i] =
static_cast<dst_t>(src[i]);` — reads source element `i`, casts it, and
appends its bytes at the next sequential destination position.
The `foldl` accumulator mirrors the sequential writes. -/
def convert_and_copy_no_pad (castv : ElementType → ElementType → List Nat → List Nat)
    (src : Nat → Nat) (src_et dst_et : ElementType) (size : Nat) : List Nat :=
  (List.range size).foldl
    (fun acc i => acc ++ castv src_et dst_et (elemBytes src src_et.size i)) []

/-- `convert_and_copy_padded_source`: six nested `for` loops over
`b < batch, f < feature, w < spatial[3], z < spatial[2], y < spatial[1],
x < spatial[0]`, each iteration doing
`*dst++ = static_cast<dst_t>(src[layout.get_linear_offset(tensor(b,f,x,y,z,w))])`.
The `foldl` accumulators mirror the advancing `dst` pointer. -/
def convert_and_copy_padded_source (castv : ElementType → ElementType → List Nat → List Nat)
    (src : Nat → Nat) (src_et dst_et : ElementType) (layout : CldnnLayout) : List Nat :=
  (List.range layout.batch).foldl (fun acc b =>
    (List.range layout.feature).foldl (fun acc f =>
      (List.range layout.spatial3).foldl (fun acc w =>
        (List.range layout.spatial2).foldl (fun acc z =>
          (List.range layout.spatial1).foldl (fun acc y =>
            (List.range layout.spatial0).foldl (fun acc x =>
              acc ++ castv src_et dst_et
                (elemBytes src src_et.size (layout.linear_offset b f x y z w)))
              acc) acc) acc) acc) acc) []

/-- The core dispatcher `convert_and_copy(src_ptr, src_et, dst_ptr, dst_et,
size, layout)`.  In source order: the `size == 0` early return, the
same-type/no-padding `memcpy` fast path, then the `CASE` chain (each case
body picks the padded or the flat conversion loop by
`static_cast<bool>(layout.data_padding)`; all case bodies are identical up
to the concrete scalar types, which are determined by the matched
`(src_et, dst_et)` pair, so the chain is its ordered pair table), and
finally `OPENVINO_THROW` for an unmatched pair.  Success carries the flat
list of bytes written to the destination; the throw happens before any
write, so the error carries none. -/
def convert_and_copy (castv : ElementType → ElementType → List Nat → List Nat)
    (src : Nat → Nat) (src_et dst_et : ElementType) (size : Nat)
    (layout : CldnnLayout) : Except CopyError (List Nat) :=
  if size = 0 then
    .ok []
  else if src_et = dst_et ∧ layout.data_padding = false then
    .ok (memcpyBytes src (size * src_et.size))
  else if (src_et, dst_et) ∈ supported_pairs then
    if layout.data_padding then
      .ok (convert_and_copy_padded_source castv src src_et dst_et layout)
    else
      .ok (convert_and_copy_no_pad castv src src_et dst_et size)
  else
    .error (.UnsupportedConversion src_et dst_et)

/-! ### Entry points and their lock discipline

`cldnn::mem_lock` is a scoped (RAII) lock whose class lives outside the
copied sources; modelled from the spec: "a scoped lock must be acquired
(read-mode for the source, write-mode for the destination) and held for the
duration of the copy; release is guaranteed on every exit path including
the unsupported-type-pair failure".  Each entry point is modelled as the
delegated core copy paired with the trace of lock events it performs; the
`access` event marks where the buffers' bytes are touched (the delegated
core copy), so "acquired before access, released after" is visible in the
trace order.  C++ destroys the locks in reverse declaration order
(`dst_lock` is declared after `src_lock` in both overloads), independently
of whether the core copy returned or threw. -/

/-- Which buffer a lock event concerns. -/
inductive Side where
  | src | dst
  deriving DecidableEq, Repr

/-- The lock mode: `mem_lock_type::read` for the source; the destination
lock's mode is modelled from the spec as write-mode ("write-mode for the
destination") since the `mem_lock` default template argument is not in the
copied sources. -/
inductive LockMode where
  | read | write
  deriving DecidableEq, Repr

/-- One event of an entry point's lock trace. -/
inductive LockEvent where
  | acquire (side : Side) (mode : LockMode)
  | access
  | release (side : Side) (mode : LockMode)
  deriving DecidableEq, Repr

/-- The `cldnn::layout({}, ov::element::undefined, cldnn::format::bfyx,
cldnn::padding())` the `ITensor` overload builds.  Modelled from the spec:
the `cldnn::layout` constructor is outside the copied sources; a
default-constructed `cldnn::padding()` is empty, so `data_padding` is
`false` ("an unpadded, type-erased flat layout"); the extents of the
empty-shape layout are modelled as 1 and the offset function as constant 0 —
nothing reachable with an unpadded layout consults them. -/
def default_flat_layout : CldnnLayout :=
  { data_padding := false
    data_type := .undefined
    batch := 1, feature := 1
    spatial0 := 1, spatial1 := 1, spatial2 := 1, spatial3 := 1
    linear_offset := fun _ _ _ _ _ _ => 0 }

/-- The `memory::ptr` overload
`convert_and_copy(const cldnn::memory::ptr src, ov::ITensor const* dst,
const cldnn::stream&)`: the element types come from `src->get_layout()`
and `dst`, the size from `ov::shape_size(dst->get_shape())`; the source
(device memory) is always lock-acquired in read mode; the destination is
lock-acquired (write) exactly when it is a `RemoteTensorImpl`
(`dst_remote`); then the core copy runs on `src->get_layout()`. -/
def convert_and_copy_mem (castv : ElementType → ElementType → List Nat → List Nat)
    (srcBytes : Nat → Nat) (srcLayout : CldnnLayout) (dst_et : ElementType)
    (dstShape : List Nat) (dst_remote : Bool) :
    Except CopyError (List Nat) × List LockEvent :=
  (convert_and_copy castv srcBytes srcLayout.data_type dst_et dstShape.prod srcLayout,
   [.acquire .src .read]
     ++ (if dst_remote then [.acquire .dst .write] else [])
     ++ [.access]
     ++ (if dst_remote then [.release .dst .write] else [])
     ++ [.release .src .read])

/-- The `ITensor` overload
`convert_and_copy(const ov::ITensor* src, ov::ITensor const* dst,
const cldnn::stream&)`: each side is lock-acquired exactly when its
`dynamic_cast` to `RemoteTensorImpl` succeeds (`src_remote` / `dst_remote`,
read mode for the source, write for the destination); the core copy always
receives the freshly built unpadded `default_flat_layout`. -/
def convert_and_copy_tensor (castv : ElementType → ElementType → List Nat → List Nat)
    (srcBytes : Nat → Nat) (src_et dst_et : ElementType)
    (dstShape : List Nat) (src_remote dst_remote : Bool) :
    Except CopyError (List Nat) × List LockEvent :=
  (convert_and_copy castv srcBytes src_et dst_et dstShape.prod default_flat_layout,
   (if src_remote then [.acquire .src .read] else [])
     ++ (if dst_remote then [.acquire .dst .write] else [])
     ++ [.access]
     ++ (if dst_remote then [.release .dst .write] else [])
     ++ (if src_remote then [.release .src .read] else []))

/-! ### The `ReshapeFullyConnected` rewrite rule -/

/-- A matched `ngraph::op::FullyConnected` node as the callback reads it:
the shapes of its three inputs (`input_value(0..2)`), its own output shape
(`fc->get_shape()`), and its friendly name. -/
structure FCNode where
  data_shape : List Nat
  weights_shape : List Nat
  bias_shape : List Nat
  output_shape : List Nat
  name : String
  deriving DecidableEq, Repr

/-- Which freshly built node `ngraph::replace_node` substitutes for the
matched node. -/
inductive Replacement where
  | trailingReshape | newFC
  deriving DecidableEq, Repr

/-- The graph surgery a successful rewrite performs: the inserted input
reshape (its `[-1, K]` target constant, its friendly name and its inferred
output shape), the new fully-connected node (its inputs, identified by the
data-input node's friendly name plus the reused weight/bias shapes, its
declared output shape and its friendly name if one was assigned), the
optional trailing reshape (target shape and friendly name), the original
node's name after any renaming, and which node replaced the original. -/
structure RewriteOutcome where
  reshape_target : List Int
  reshape_name : String
  reshape_out_shape : List Nat
  fc_new_inputs : String × List Nat × List Nat
  fc_new_output_shape : List Nat
  fc_new_name : Option String
  trailing : Option (List Nat × String)
  original_renamed : Option String
  replacement : Replacement
  deriving DecidableEq, Repr

/-- Modelled from the spec: ngraph `opset1::Reshape` shape inference for
target `[-1, K]` — "the `-1` is inferred by the reshape semantics as
whatever size is consistent with `K` and the total element count", i.e.
the result is `[total / K, K]` with `total` the product of the input
shape's dimensions. -/
def reshape_inferred_shape (input_shape : List Nat) (K : Nat) : List Nat :=
  [input_shape.prod / K, K]

/-- The `ReshapeFullyConnected` graph-rewrite callback
(`reshape_fully_connected.cpp`, lines 21–62).  `none` is the callback
returning `false` (declined, graph untouched); `some` is the callback
returning `true` together with the surgery it performed.  `veto` is the
external `transformation_callback`. -/
def reshape_fully_connected (veto : FCNode → Bool) (fc : FCNode) : Option RewriteOutcome :=
  if veto fc then none
  else
    let input_shape := fc.data_shape
    let output_shape := fc.output_shape
    if input_shape.length = 2 then none
    else
      let K := input_shape.getLastD 0
      let reshape_out := reshape_inferred_shape input_shape K
      let I := reshape_out.headD 0
      let O := fc.weights_shape.headD 0
      let output_shape_new := [I, O]
      if output_shape ≠ output_shape_new then
        some { reshape_target := [-1, (K : Int)]
               reshape_name := fc.name ++ "/Reshape"
               reshape_out_shape := reshape_out
               fc_new_inputs := (fc.name ++ "/Reshape", fc.weights_shape, fc.bias_shape)
               fc_new_output_shape := output_shape_new
               fc_new_name := none
               trailing := some (output_shape, fc.name)
               original_renamed := some (fc.name ++ "/FC")
               replacement := .trailingReshape }
      else
        some { reshape_target := [-1, (K : Int)]
               reshape_name := fc.name ++ "/Reshape"
               reshape_out_shape := reshape_out
               fc_new_inputs := (fc.name ++ "/Reshape", fc.weights_shape, fc.bias_shape)
               fc_new_output_shape := output_shape_new
               fc_new_name := some fc.name
               trailing := none
               original_renamed := none
               replacement := .newFC }

/-! ### Declarative descriptions used to state the claims -/

/-- The logical index space of a padded layout in the traversal order of the
spec: outermost-to-innermost `batch, feature, spatial-axis-3, spatial-axis-2,
spatial-axis-1, spatial-axis-0` (innermost fastest), each index recorded as
`(b, f, x, y, z, w)` — the argument order of `cldnn::tensor(b, f, x, y, z, w)`. -/
def paddedIndices (L : CldnnLayout) : List (Nat × Nat × Nat × Nat × Nat × Nat) :=
  (List.range L.batch).flatMap fun b =>
    (List.range L.feature).flatMap fun f =>
      (List.range L.spatial3).flatMap fun w =>
        (List.range L.spatial2).flatMap fun z =>
          (List.range L.spatial1).flatMap fun y =>
            (List.range L.spatial0).map fun x => (b, f, x, y, z, w)

/-- The source-element offset the padded traversal reads for one logical
index `(b, f, x, y, z, w)`: the layout's addressing function applied to it. -/
def paddedRead (castv : ElementType → ElementType → List Nat → List Nat)
    (src : Nat → Nat) (src_et dst_et : ElementType) (L : CldnnLayout) :
    Nat × Nat × Nat × Nat × Nat × Nat → List Nat
  | (b, f, x, y, z, w) =>
      castv src_et dst_et (elemBytes src src_et.size (L.linear_offset b f x y z w))

/-- The total logical element count of a layout's extents: the product of
the batch, feature and four spatial sizes. -/
def CldnnLayout.elementCount (L : CldnnLayout) : Nat :=
  L.batch * L.feature * L.spatial3 * L.spatial2 * L.spatial1 * L.spatial0

/-- Destination element number `i` of a flat byte list whose elements are
`es` bytes wide: bytes `[i*es, i*es + es)`. -/
def extractElem (l : List Nat) (es i : Nat) : List Nat :=
  (l.drop (i * es)).take es

/-- Is the event a lock acquisition? -/
def LockEvent.isAcq : LockEvent → Bool
  | .acquire _ _ => true
  | _ => false

/-- Is the event a lock release? -/
def LockEvent.isRel : LockEvent → Bool
  | .release _ _ => true
  | _ => false

/-! ### Helper lemmas -/

/-- A `foldl` that appends a block per iteration is a `flatMap`: the loop
writing `f a` at the advancing destination cursor produces the
concatenation of the blocks in iteration order. -/
theorem foldl_append_eq_flatMap {α β : Type} (f : α → List β) (l : List α)
    (init : List β) :
    l.foldl (fun acc a => acc ++ f a) init = init ++ l.flatMap f := by
  induction l generalizing init with
  | nil => simp
  | cons a t ih => simp [ih, List.append_assoc]

/-- The flat conversion loop writes, in order, the cast of every source
element `0, 1, …, size-1`. -/
theorem convert_and_copy_no_pad_eq
    (castv : ElementType → ElementType → List Nat → List Nat)
    (src : Nat → Nat) (src_et dst_et : ElementType) (size : Nat) :
    convert_and_copy_no_pad castv src src_et dst_et size =
      (List.range size).flatMap
        (fun i => castv src_et dst_et (elemBytes src src_et.size i)) := by
  unfold convert_and_copy_no_pad
  rw [foldl_append_eq_flatMap]
  simp

/-- `memcpy` of `n` whole elements of width `es` is the concatenation of
the elements' bytes in order. -/
theorem memcpyBytes_eq_flatMap (src : Nat → Nat) (es n : Nat) :
    memcpyBytes src (n * es) = (List.range n).flatMap (elemBytes src es) := by
  induction n with
  | zero => simp [memcpyBytes]
  | succ n ih =>
      have h : (n + 1) * es = n * es + es := by ring
      rw [h]
      unfold memcpyBytes at ih ⊢
      rw [List.range_add, List.map_append, ih, List.range_succ,
        List.flatMap_append]
      simp [elemBytes, List.map_map, Function.comp]

/-- Extracting chunk `i` from a concatenation of constant-width chunks
over `List.range' s len` yields chunk `s + i`. -/
theorem extract_flatMap_range' (g : Nat → List Nat) (L : Nat)
    (hg : ∀ j, (g j).length = L) :
    ∀ (len s i : Nat), i < len →
      extractElem ((List.range' s len).flatMap g) L i = g (s + i) := by
  intro len
  induction len with
  | zero => intro s i h; exact absurd h (Nat.not_lt_zero i)
  | succ n ih =>
      intro s i h
      rw [List.range'_succ, List.flatMap_cons]
      cases i with
      | zero =>
          unfold extractElem
          simp only [Nat.zero_mul, List.drop_zero]
          rw [← hg s, List.take_left, Nat.add_zero]
      | succ i =>
          unfold extractElem
          have hL : (i + 1) * L = (g s).length + i * L := by rw [hg s]; ring
          rw [hL, List.drop_append]
          have hrec := ih (s + 1) i (by omega)
          unfold extractElem at hrec
          rw [hrec]
          congr 1
          omega

/-- Extracting destination element `i` from a concatenation of
constant-width chunks over `List.range n` yields chunk `i`. -/
theorem extract_flatMap_range (g : Nat → List Nat) (L n i : Nat)
    (hg : ∀ j, (g j).length = L) (hi : i < n) :
    extractElem ((List.range n).flatMap g) L i = g i := by
  rw [List.range_eq_range']
  have h := extract_flatMap_range' g L hg n 0 i hi
  simpa using h

/-- The padded-source loop nest writes, in order, the cast of the source
element addressed by `linear_offset` at each logical index of the
traversal. -/
theorem convert_and_copy_padded_source_eq
    (castv : ElementType → ElementType → List Nat → List Nat)
    (src : Nat → Nat) (src_et dst_et : ElementType) (L : CldnnLayout) :
    convert_and_copy_padded_source castv src src_et dst_et L =
      (paddedIndices L).flatMap (paddedRead castv src src_et dst_et L) := by
  unfold convert_and_copy_padded_source paddedIndices
  simp only [foldl_append_eq_flatMap, List.nil_append]
  simp [List.flatMap_assoc, List.flatMap_map, paddedRead]

/-- An empty logical index space (some extent is zero) has an empty
traversal. -/
theorem paddedIndices_eq_nil (L : CldnnLayout) (h : L.elementCount = 0) :
    paddedIndices L = [] := by
  unfold CldnnLayout.elementCount at h
  unfold paddedIndices
  rcases Nat.mul_eq_zero.mp h with h5 | h0
  · rcases Nat.mul_eq_zero.mp h5 with h4 | h1
    · rcases Nat.mul_eq_zero.mp h4 with h3 | h2
      · rcases Nat.mul_eq_zero.mp h3 with h2' | h3'
        · rcases Nat.mul_eq_zero.mp h2' with hb | hf
          · simp [hb]
          · simp [hf]
        · simp [h3']
      · simp [h2]
    · simp [h1]
  · simp [h0]

/-- Branch analysis of the dispatcher: the same-type/no-padding fast path
is the `memcpy` of `size * element_size` bytes. -/
theorem convert_and_copy_fast_path
    (castv : ElementType → ElementType → List Nat → List Nat)
    (src : Nat → Nat) (et : ElementType) (size : Nat) (L : CldnnLayout)
    (hpad : L.data_padding = false) :
    convert_and_copy castv src et et size L =
      .ok (memcpyBytes src (size * et.size)) := by
  unfold convert_and_copy
  rcases Nat.eq_zero_or_pos size with h | h
  · subst h; simp [memcpyBytes]
  · rw [if_neg (by omega), if_pos ⟨rfl, hpad⟩]

/-- Branch analysis of the dispatcher: a supported pair with a padded
source layout and a nonzero count runs the padded-source loop. -/
theorem convert_and_copy_padded_branch
    (castv : ElementType → ElementType → List Nat → List Nat)
    (src : Nat → Nat) (src_et dst_et : ElementType) (size : Nat)
    (L : CldnnLayout) (hsize : size ≠ 0) (hpad : L.data_padding = true)
    (hmem : (src_et, dst_et) ∈ supported_pairs) :
    convert_and_copy castv src src_et dst_et size L =
      .ok (convert_and_copy_padded_source castv src src_et dst_et L) := by
  unfold convert_and_copy
  have hcond : ¬(src_et = dst_et ∧ L.data_padding = false) := by
    rintro ⟨-, h⟩
    rw [hpad] at h
    simp at h
  rw [if_neg hsize, if_neg hcond, if_pos hmem, if_pos hpad]

/-- Branch analysis of the dispatcher: a supported pair of distinct types
with an unpadded source layout and a nonzero count runs the flat
conversion loop. -/
theorem convert_and_copy_no_pad_branch
    (castv : ElementType → ElementType → List Nat → List Nat)
    (src : Nat → Nat) (src_et dst_et : ElementType) (size : Nat)
    (L : CldnnLayout) (hsize : size ≠ 0) (hpad : L.data_padding = false)
    (hne : src_et ≠ dst_et) (hmem : (src_et, dst_et) ∈ supported_pairs) :
    convert_and_copy castv src src_et dst_et size L =
      .ok (convert_and_copy_no_pad castv src src_et dst_et size) := by
  unfold convert_and_copy
  rw [if_neg hsize, if_neg (by rintro ⟨h, -⟩; exact hne h), if_pos hmem,
    if_neg (by rw [hpad]; simp)]

/-- Branch analysis of the dispatcher: an unmatched pair that needs a real
conversion throws, before any write. -/
theorem convert_and_copy_unsupported
    (castv : ElementType → ElementType → List Nat → List Nat)
    (src : Nat → Nat) (src_et dst_et : ElementType) (size : Nat)
    (L : CldnnLayout) (hsize : size ≠ 0)
    (habs : (src_et, dst_et) ∉ supported_pairs)
    (hnt : src_et ≠ dst_et ∨ L.data_padding = true) :
    convert_and_copy castv src src_et dst_et size L =
      .error (.UnsupportedConversion src_et dst_et) := by
  unfold convert_and_copy
  have hcond : ¬(src_et = dst_et ∧ L.data_padding = false) := by
    rintro ⟨heq, hpadf⟩
    rcases hnt with h | h
    · exact h heq
    · rw [h] at hpadf; simp at hpadf
  rw [if_neg hsize, if_neg hcond, if_neg habs]

/-- One element of a buffer of width `es` is `es` bytes. -/
theorem elemBytes_length (src : Nat → Nat) (es i : Nat) :
    (elemBytes src es i).length = es := by
  simp [elemBytes]

/-! ### Claims -/

/-- C9: for `element_count = 0` the copy is a no-op that succeeds
trivially — it returns `ok` having written nothing, for every pair of
element types (supported or not) and every source layout. -/
theorem copy_zero_count_noop
    (castv : ElementType → ElementType → List Nat → List Nat)
    (src : Nat → Nat) (src_et dst_et : ElementType) (L : CldnnLayout) :
    convert_and_copy castv src src_et dst_et 0 L = .ok [] := by
  unfold convert_and_copy
  simp

/-- C3: with identical element types and an unpadded source layout, the
copy's destination bytes are exactly a raw memory copy of
`element_count * element_size(source_type)` bytes from the source, for
every element count (including 0). -/
theorem copy_same_type_no_pad_is_memcpy
    (castv : ElementType → ElementType → List Nat → List Nat)
    (src : Nat → Nat) (et : ElementType) (size : Nat) (L : CldnnLayout)
    (hpad : L.data_padding = false) :
    convert_and_copy castv src et et size L =
      .ok (memcpyBytes src (size * et.size)) :=
  convert_and_copy_fast_path castv src et size L hpad

/-- Witness for C3 at a concrete input: 3 `i32` elements through an
unpadded layout are the first 12 source bytes. -/
theorem copy_same_type_no_pad_is_memcpy_witness :
    default_flat_layout.data_padding = false ∧
    convert_and_copy (fun _ _ bs => bs) (fun a => a + 1) .i32 .i32 3
        default_flat_layout =
      .ok (memcpyBytes (fun a => a + 1) (3 * ElementType.size .i32)) :=
  ⟨rfl, copy_same_type_no_pad_is_memcpy (fun _ _ bs => bs) (fun a => a + 1)
    .i32 3 default_flat_layout rfl⟩

/-- C2 counterexample: at element count 0 the copy succeeds (returning at
the `size == 0` early exit) even though the pair `(f64, i32)` is absent
from the supported table and the element types differ — so, as stated
(for *every* such copy), the claim that the copy fails is false. -/
theorem copy_unsupported_pair_zero_count_succeeds :
    (ElementType.f64, ElementType.i32) ∉ supported_pairs ∧
    ElementType.f64 ≠ ElementType.i32 ∧
    convert_and_copy (fun _ _ bs => bs) (fun _ => 0) .f64 .i32 0
        default_flat_layout = .ok [] := by
  refine ⟨by decide, by decide, ?_⟩
  rfl

/-- C2 (amended: nonzero element count): whenever the element count is
nonzero, the pair is absent from the supported table and a non-trivial
conversion is required (differing types, or a padded source layout), the
copy fails with `UnsupportedConversion` naming both element types, with no
element written (the error carries an empty write trace: the throw
precedes every write). -/
theorem copy_unsupported_pair_fails
    (castv : ElementType → ElementType → List Nat → List Nat)
    (src : Nat → Nat) (src_et dst_et : ElementType) (size : Nat)
    (L : CldnnLayout) (hsize : size ≠ 0)
    (habs : (src_et, dst_et) ∉ supported_pairs)
    (hnt : src_et ≠ dst_et ∨ L.data_padding = true) :
    convert_and_copy castv src src_et dst_et size L =
      .error (.UnsupportedConversion src_et dst_et) :=
  convert_and_copy_unsupported castv src src_et dst_et size L hsize habs hnt

/-- Witness for the amended C2: one `f64` element to `i32` through an
unpadded layout fails with the error naming `f64` and `i32`. -/
theorem copy_unsupported_pair_fails_witness :
    (1 : Nat) ≠ 0 ∧
    (ElementType.f64, ElementType.i32) ∉ supported_pairs ∧
    convert_and_copy (fun _ _ bs => bs) (fun _ => 0) .f64 .i32 1
        default_flat_layout =
      .error (.UnsupportedConversion .f64 .i32) :=
  ⟨by decide, by decide,
    copy_unsupported_pair_fails (fun _ _ bs => bs) (fun _ => 0) .f64 .i32 1
      default_flat_layout (by decide) (by decide) (Or.inl (by decide))⟩

/-- C5: the same-type/no-padding fast path is tested strictly before the
`CASE` table.  With no padding, `f32→f32` and `f16→f16` — although listed
in the table — take the block copy (the result is the `memcpy` image for
*every* cast function, so no cast is consulted); with a padded source
layout the table is consulted, so `f32→f32` and `f16→f16` run the
padded-layout-aware loop while the same-type pair `f64→f64`, absent from
the table, fails with the unsupported-conversion error. -/
theorem fast_path_precedes_type_table
    (castv : ElementType → ElementType → List Nat → List Nat)
    (src : Nat → Nat) (size : Nat) (L : CldnnLayout) :
    (L.data_padding = false →
      convert_and_copy castv src .f32 .f32 size L =
        .ok (memcpyBytes src (size * 4)) ∧
      convert_and_copy castv src .f16 .f16 size L =
        .ok (memcpyBytes src (size * 2))) ∧
    (L.data_padding = true → size ≠ 0 →
      convert_and_copy castv src .f32 .f32 size L =
        .ok (convert_and_copy_padded_source castv src .f32 .f32 L) ∧
      convert_and_copy castv src .f16 .f16 size L =
        .ok (convert_and_copy_padded_source castv src .f16 .f16 L) ∧
      convert_and_copy castv src .f64 .f64 size L =
        .error (.UnsupportedConversion .f64 .f64)) := by
  constructor
  · intro hpad
    exact ⟨convert_and_copy_fast_path castv src .f32 size L hpad,
      convert_and_copy_fast_path castv src .f16 size L hpad⟩
  · intro hpad hsize
    exact ⟨convert_and_copy_padded_branch castv src .f32 .f32 size L hsize hpad (by decide),
      convert_and_copy_padded_branch castv src .f16 .f16 size L hsize hpad (by decide),
      convert_and_copy_unsupported castv src .f64 .f64 size L hsize (by decide)
        (Or.inr hpad)⟩

/-- Witness for C5 at concrete inputs: with no padding `f32→f32` is the
block copy (for a cast function that is *not* consulted), and with padding
`f64→f64` is the unsupported-conversion error. -/
theorem fast_path_precedes_type_table_witness :
    convert_and_copy (fun _ _ bs => 0 :: bs) (fun _ => 7) .f32 .f32 2
        default_flat_layout = .ok (memcpyBytes (fun _ => 7) (2 * 4)) ∧
    convert_and_copy (fun _ _ bs => 0 :: bs) (fun _ => 7) .f64 .f64 2
        (CldnnLayout.mk true .f32 1 1 1 1 1 1 (fun _ _ _ _ _ _ => 0)) =
      .error (.UnsupportedConversion .f64 .f64) :=
  ⟨((fast_path_precedes_type_table (fun _ _ bs => 0 :: bs) (fun _ => 7) 2
      default_flat_layout).1 rfl).1,
   ((fast_path_precedes_type_table (fun _ _ bs => 0 :: bs) (fun _ => 7) 2
      (CldnnLayout.mk true .f32 1 1 1 1 1 1 (fun _ _ _ _ _ _ => 0))).2 rfl
      (by decide)).2.2⟩

/-- C1: for a supported type pair and a padded source layout, with the
element count the layout's logical count (the copy precondition), the
destination is exactly the flat sequence obtained by walking the logical
index space in the nested order batch, feature, spatial-axis-3,
spatial-axis-2, spatial-axis-1, spatial-axis-0 (innermost fastest),
reading the source element at the layout's affine address of each logical
index, casting it, and appending it at the next sequential destination
slot. -/
theorem copy_padded_source_traversal
    (castv : ElementType → ElementType → List Nat → List Nat)
    (src : Nat → Nat) (src_et dst_et : ElementType) (size : Nat)
    (L : CldnnLayout)
    (hmem : (src_et, dst_et) ∈ supported_pairs)
    (hpad : L.data_padding = true)
    (hsize : size = L.elementCount) :
    convert_and_copy castv src src_et dst_et size L =
      .ok ((paddedIndices L).flatMap (paddedRead castv src src_et dst_et L)) := by
  by_cases h0 : size = 0
  · have hc : L.elementCount = 0 := by rw [← hsize, h0]
    rw [paddedIndices_eq_nil L hc, h0]
    simp [convert_and_copy]
  · rw [convert_and_copy_padded_branch castv src src_et dst_et size L h0 hpad hmem,
      convert_and_copy_padded_source_eq]

/-- Witness for C1: a 2×2×2×1×1×1 padded `f32→f32` copy with a concrete
affine offset function matches its traversal-order description. -/
theorem copy_padded_source_traversal_witness :
    ((ElementType.f32, ElementType.f32) ∈ supported_pairs) ∧
    (CldnnLayout.mk true .f32 2 2 2 1 1 1
        (fun b f x _ _ _ => 16 * b + 8 * f + x)).data_padding = true ∧
    (8 : Nat) = (CldnnLayout.mk true .f32 2 2 2 1 1 1
        (fun b f x _ _ _ => 16 * b + 8 * f + x)).elementCount ∧
    convert_and_copy (fun _ _ bs => bs) (fun a => a) .f32 .f32 8
        (CldnnLayout.mk true .f32 2 2 2 1 1 1
          (fun b f x _ _ _ => 16 * b + 8 * f + x)) =
      .ok ((paddedIndices (CldnnLayout.mk true .f32 2 2 2 1 1 1
          (fun b f x _ _ _ => 16 * b + 8 * f + x))).flatMap
        (paddedRead (fun _ _ bs => bs) (fun a => a) .f32 .f32
          (CldnnLayout.mk true .f32 2 2 2 1 1 1
            (fun b f x _ _ _ => 16 * b + 8 * f + x)))) :=
  ⟨by decide, rfl, by decide,
    copy_padded_source_traversal (fun _ _ bs => bs) (fun a => a) .f32 .f32 8
      (CldnnLayout.mk true .f32 2 2 2 1 1 1
        (fun b f x _ _ _ => 16 * b + 8 * f + x))
      (by decide) rfl (by decide)⟩

/-- C4: for an unpadded source layout and a supported type pair, given
that the cast produces destination-width elements and that a same-type
cast is the identity on an element's bytes (both properties of the C++
`static_cast` that `castv` abstracts), destination element `i` equals the
cast of source element `i`, for every `i` below the element count. -/
theorem copy_no_pad_elementwise_cast
    (castv : ElementType → ElementType → List Nat → List Nat)
    (src : Nat → Nat) (src_et dst_et : ElementType) (size : Nat)
    (L : CldnnLayout)
    (hmem : (src_et, dst_et) ∈ supported_pairs)
    (hpad : L.data_padding = false)
    (hlen : ∀ bs, (castv src_et dst_et bs).length = dst_et.size)
    (hid : src_et = dst_et → ∀ bs, castv src_et dst_et bs = bs)
    (i : Nat) (hi : i < size) :
    ∃ out, convert_and_copy castv src src_et dst_et size L = .ok out ∧
      extractElem out dst_et.size i =
        castv src_et dst_et (elemBytes src src_et.size i) := by
  have hsize : size ≠ 0 := by omega
  by_cases heq : src_et = dst_et
  · subst heq
    refine ⟨memcpyBytes src (size * src_et.size),
      convert_and_copy_fast_path castv src src_et size L hpad, ?_⟩
    rw [hid rfl, memcpyBytes_eq_flatMap]
    exact extract_flatMap_range (elemBytes src src_et.size) src_et.size size i
      (fun j => elemBytes_length src src_et.size j) hi
  · refine ⟨convert_and_copy_no_pad castv src src_et dst_et size,
      convert_and_copy_no_pad_branch castv src src_et dst_et size L hsize hpad
        heq hmem, ?_⟩
    rw [convert_and_copy_no_pad_eq]
    exact extract_flatMap_range _ dst_et.size size i (fun _ => hlen _) hi

/-- Witness for C4: a 2-element `u64→i32` copy; destination element 0 is
the cast of source element 0. -/
theorem copy_no_pad_elementwise_cast_witness :
    ((ElementType.u64, ElementType.i32) ∈ supported_pairs) ∧ (0 : Nat) < 2 ∧
    ∃ out, convert_and_copy (fun _ _ _ => [9, 9, 9, 9]) (fun a => a) .u64 .i32 2
        default_flat_layout = .ok out ∧
      extractElem out (ElementType.size .i32) 0 = [9, 9, 9, 9] :=
  ⟨by decide, by decide,
    copy_no_pad_elementwise_cast (fun _ _ _ => [9, 9, 9, 9]) (fun a => a)
      .u64 .i32 2 default_flat_layout (by decide) rfl (fun _ => rfl)
      (fun h => absurd h (by decide)) 0 (by decide)⟩

/-- C8: per call, each indirect buffer's scoped lock is acquired exactly
once (read-mode source, write-mode destination) before the buffers' bytes
are touched and released exactly once afterwards — the trace is the same
on every exit path, since it does not depend on the copy's result — and a
directly addressable buffer is never locked (its lock events count 0, and
the total acquire/release counts equal the number of indirect buffers).
The decomposition `trace = acquires ++ [access] ++ releases` shows every
acquisition precedes the byte access and every release follows it. -/
theorem entry_points_lock_discipline
    (castv : ElementType → ElementType → List Nat → List Nat)
    (srcBytes : Nat → Nat) (srcLayout : CldnnLayout)
    (src_et dst_et : ElementType) (dstShape : List Nat)
    (src_remote dst_remote : Bool) :
    (let tr := (convert_and_copy_mem castv srcBytes srcLayout dst_et dstShape
        dst_remote).2
     tr.count (.acquire .src .read) = 1 ∧
     tr.count (.release .src .read) = 1 ∧
     tr.count (.acquire .dst .write) = (if dst_remote then 1 else 0) ∧
     tr.count (.release .dst .write) = (if dst_remote then 1 else 0) ∧
     (tr.filter LockEvent.isAcq).length = 1 + (if dst_remote then 1 else 0) ∧
     (tr.filter LockEvent.isRel).length = 1 + (if dst_remote then 1 else 0) ∧
     ∃ A R, tr = A ++ [.access] ++ R ∧
       A.all LockEvent.isAcq = true ∧ R.all LockEvent.isRel = true) ∧
    (let tr := (convert_and_copy_tensor castv srcBytes src_et dst_et dstShape
        src_remote dst_remote).2
     tr.count (.acquire .src .read) = (if src_remote then 1 else 0) ∧
     tr.count (.release .src .read) = (if src_remote then 1 else 0) ∧
     tr.count (.acquire .dst .write) = (if dst_remote then 1 else 0) ∧
     tr.count (.release .dst .write) = (if dst_remote then 1 else 0) ∧
     (tr.filter LockEvent.isAcq).length =
       (if src_remote then 1 else 0) + (if dst_remote then 1 else 0) ∧
     (tr.filter LockEvent.isRel).length =
       (if src_remote then 1 else 0) + (if dst_remote then 1 else 0) ∧
     ∃ A R, tr = A ++ [.access] ++ R ∧
       A.all LockEvent.isAcq = true ∧ R.all LockEvent.isRel = true) := by
  cases src_remote <;> cases dst_remote
  · exact ⟨⟨rfl, rfl, rfl, rfl, rfl, rfl,
      [.acquire .src .read], [.release .src .read], rfl, rfl, rfl⟩,
      rfl, rfl, rfl, rfl, rfl, rfl, [], [], rfl, rfl, rfl⟩
  · exact ⟨⟨rfl, rfl, rfl, rfl, rfl, rfl,
      [.acquire .src .read, .acquire .dst .write],
      [.release .dst .write, .release .src .read], rfl, rfl, rfl⟩,
      rfl, rfl, rfl, rfl, rfl, rfl,
      [.acquire .dst .write], [.release .dst .write], rfl, rfl, rfl⟩
  · exact ⟨⟨rfl, rfl, rfl, rfl, rfl, rfl,
      [.acquire .src .read], [.release .src .read], rfl, rfl, rfl⟩,
      rfl, rfl, rfl, rfl, rfl, rfl,
      [.acquire .src .read], [.release .src .read], rfl, rfl, rfl⟩
  · exact ⟨⟨rfl, rfl, rfl, rfl, rfl, rfl,
      [.acquire .src .read, .acquire .dst .write],
      [.release .dst .write, .release .src .read], rfl, rfl, rfl⟩,
      rfl, rfl, rfl, rfl, rfl, rfl,
      [.acquire .src .read, .acquire .dst .write],
      [.release .dst .write, .release .src .read], rfl, rfl, rfl⟩

/-- C10: the generic tensor-to-tensor entry point always delegates to the
core copy with the freshly built unpadded flat layout, for every
provenance of the source (remote or not), so every successful result it
can produce comes from the zero-count exit, the block copy, or the flat
conversion loop — never from the padded traversal.  The device-memory
entry point, by contrast, passes the handle's own layout through. -/
theorem tensor_entry_always_flat_layout
    (castv : ElementType → ElementType → List Nat → List Nat)
    (srcBytes : Nat → Nat) (src_et dst_et : ElementType) (dstShape : List Nat)
    (src_remote dst_remote : Bool) :
    default_flat_layout.data_padding = false ∧
    (convert_and_copy_tensor castv srcBytes src_et dst_et dstShape src_remote
        dst_remote).1 =
      convert_and_copy castv srcBytes src_et dst_et dstShape.prod
        default_flat_layout ∧
    (∀ out,
      (convert_and_copy_tensor castv srcBytes src_et dst_et dstShape src_remote
          dst_remote).1 = .ok out →
      out = [] ∨
      out = memcpyBytes srcBytes (dstShape.prod * src_et.size) ∨
      out = convert_and_copy_no_pad castv srcBytes src_et dst_et dstShape.prod) ∧
    (∀ srcLayout : CldnnLayout,
      (convert_and_copy_mem castv srcBytes srcLayout dst_et dstShape
          dst_remote).1 =
        convert_and_copy castv srcBytes srcLayout.data_type dst_et dstShape.prod
          srcLayout) := by
  refine ⟨rfl, rfl, ?_, fun _ => rfl⟩
  intro out h
  have h' : convert_and_copy castv srcBytes src_et dst_et dstShape.prod
      default_flat_layout = .ok out := h
  unfold convert_and_copy at h'
  split_ifs at h' with h1 h2 h3 h4
  · exact Or.inl (Except.ok.inj h').symm
  · exact Or.inr (Or.inl (h2.1 ▸ (Except.ok.inj h').symm))
  · exact absurd h4 (by decide)
  · exact Or.inr (Or.inr (Except.ok.inj h').symm)

/-- Witness for C10: a concrete 2-element `f32→f32` copy through the
tensor entry point with a remote source takes the block-copy disjunct. -/
theorem tensor_entry_always_flat_layout_witness :
    (convert_and_copy_tensor (fun _ _ bs => bs) (fun a => a) .f32 .f32 [2] true
        false).1 = .ok (memcpyBytes (fun a => a) 8) ∧
    (memcpyBytes (fun a => a) 8 = [] ∨
     memcpyBytes (fun a => a) 8 =
       memcpyBytes (fun a => a) (([2] : List Nat).prod * ElementType.size .f32) ∨
     memcpyBytes (fun a => a) 8 =
       convert_and_copy_no_pad (fun _ _ bs => bs) (fun a => a) .f32 .f32
         ([2] : List Nat).prod) := by
  have hconc : (convert_and_copy_tensor (fun _ _ bs => bs) (fun a => a) .f32
      .f32 [2] true false).1 = .ok (memcpyBytes (fun a => a) 8) := rfl
  exact ⟨hconc,
    (tensor_entry_always_flat_layout (fun _ _ bs => bs) (fun a => a) .f32 .f32
      [2] true false).2.2.1 (memcpyBytes (fun a => a) 8) hconc⟩

/-- C6: a matched fully-connected node of data-input rank above 2 that is
not vetoed is rewritten: a reshape of the data input to `[-1, K]` (`K` the
last axis of the data shape) named `<name>/Reshape`; a new fully-connected
node over the reshaped data, the original weights and bias, with declared
output shape `[I, O]` (`I` the reshape's first-axis size, `O` the weights'
first-axis size); when `[I, O]` differs from the original output shape a
trailing reshape back to it is appended, inheriting the original name
while the original node is renamed `<name>/FC` and is replaced by the
trailing reshape; otherwise the new fully-connected node inherits the
name and replaces the original directly.  The match callback reports
`true` (a `some` outcome) in both cases. -/
theorem rewrite_rank_gt2_surgery (veto : FCNode → Bool) (fc : FCNode)
    (hveto : veto fc = false) (hrank : 2 < fc.data_shape.length) :
    ∃ r, reshape_fully_connected veto fc = some r ∧
      r.reshape_target = [-1, (fc.data_shape.getLastD 0 : Int)] ∧
      r.reshape_name = fc.name ++ "/Reshape" ∧
      r.reshape_out_shape =
        [fc.data_shape.prod / fc.data_shape.getLastD 0,
         fc.data_shape.getLastD 0] ∧
      r.fc_new_inputs = (fc.name ++ "/Reshape", fc.weights_shape, fc.bias_shape) ∧
      r.fc_new_output_shape =
        [fc.data_shape.prod / fc.data_shape.getLastD 0,
         fc.weights_shape.headD 0] ∧
      (r.fc_new_output_shape ≠ fc.output_shape →
        r.trailing = some (fc.output_shape, fc.name) ∧
        r.original_renamed = some (fc.name ++ "/FC") ∧
        r.fc_new_name = none ∧
        r.replacement = .trailingReshape) ∧
      (r.fc_new_output_shape = fc.output_shape →
        r.trailing = none ∧
        r.original_renamed = none ∧
        r.fc_new_name = some fc.name ∧
        r.replacement = .newFC) := by
  unfold reshape_fully_connected reshape_inferred_shape
  rw [if_neg (by simp [hveto]), if_neg (by omega : ¬fc.data_shape.length = 2)]
  by_cases hout : fc.output_shape =
      [fc.data_shape.prod / fc.data_shape.getLastD 0, fc.weights_shape.headD 0]
  · rw [if_neg (by simpa using hout)]
    exact ⟨_, rfl, rfl, rfl, rfl, rfl, rfl,
      fun h => absurd hout.symm h, fun _ => ⟨rfl, rfl, rfl, rfl⟩⟩
  · rw [if_pos (by simpa using hout)]
    exact ⟨_, rfl, rfl, rfl, rfl, rfl, rfl,
      fun _ => ⟨rfl, rfl, rfl, rfl⟩, fun h => absurd h.symm hout⟩

/-- Witness for C6: data shape `[2,3,4]`, weights `[5,4]`, original output
`[2,3,5]`: the rewrite inserts `fc/Reshape`, a new fully-connected node of
output `[6,5]`, and a trailing reshape to `[2,3,5]` that takes the name
`fc` while the original is renamed `fc/FC`. -/
theorem rewrite_rank_gt2_surgery_witness :
    (fun (_ : FCNode) => false) (FCNode.mk [2, 3, 4] [5, 4] [5] [2, 3, 5] "fc") = false ∧
    2 < (FCNode.mk [2, 3, 4] [5, 4] [5] [2, 3, 5] "fc").data_shape.length ∧
    ∃ r, reshape_fully_connected (fun _ => false)
        (FCNode.mk [2, 3, 4] [5, 4] [5] [2, 3, 5] "fc") = some r ∧
      r.fc_new_output_shape = [6, 5] ∧
      r.trailing = some ([2, 3, 5], "fc") ∧
      r.original_renamed = some ("fc" ++ "/FC") ∧
      r.replacement = .trailingReshape := by
  obtain ⟨r, hr, -, -, -, -, h5, h6, -⟩ :=
    rewrite_rank_gt2_surgery (fun _ => false)
      (FCNode.mk [2, 3, 4] [5, 4] [5] [2, 3, 5] "fc") rfl (by decide)
  have hne : r.fc_new_output_shape ≠
      (FCNode.mk [2, 3, 4] [5, 4] [5] [2, 3, 5] "fc").output_shape := by
    rw [h5]; decide
  obtain ⟨ht, hn, -, hrep⟩ := h6 hne
  exact ⟨rfl, by decide, r, hr, by rw [h5]; decide, ht, hn, hrep⟩

/-- C7: a candidate vetoed by the external callback, or whose data input
already has rank 2, is declined: the callback returns `false` (`none`
here), the graph is untouched, and no exception is raised — the model is
a total function whose only failure mode is the declined match. -/
theorem rewrite_declines_veto_or_rank2 (veto : FCNode → Bool) (fc : FCNode)
    (h : veto fc = true ∨ fc.data_shape.length = 2) :
    reshape_fully_connected veto fc = none := by
  unfold reshape_fully_connected
  rcases h with h | h
  · rw [if_pos h]
  · by_cases hv : veto fc = true
    · rw [if_pos hv]
    · rw [if_neg hv]
      simp only [h, if_pos]

/-- Witness for C7: a veto that always rejects declines the match on a
concrete node. -/
theorem rewrite_declines_veto_or_rank2_witness :
    ((fun (_ : FCNode) => true) (FCNode.mk [1] [1] [1] [1] "n") = true ∨
      (FCNode.mk [1] [1] [1] [1] "n").data_shape.length = 2) ∧
    reshape_fully_connected (fun _ => true) (FCNode.mk [1] [1] [1] [1] "n") =
      none :=
  ⟨Or.inl rfl,
    rewrite_declines_veto_or_rank2 (fun _ => true)
      (FCNode.mk [1] [1] [1] [1] "n") (Or.inl rfl)⟩

end OpenVINO
